import Mathlib

/-!
Shallow embedding of the Glass window-decoration plugin
(`src/kdecoration/glassdecoration.cpp`, `src/kdecoration/glassbutton.cpp`).

Geometry is modelled over `ℚ` (the source computes in `qreal`); machine
integers that never overflow in the source are modelled as `ℤ`.
Qt painter paths are modelled symbolically as a term structure mirroring
the exact sequence of path operations the source performs, so that path
equality in the model is structural equality of those operation sequences.
-/

namespace Glass

/-- Modelled from the spec: `KDecoration3::pixelSize(scale)` (not in the
repository sources) is the size of one device pixel in logical units at
the given display scale ("onePixelAtScale"). -/
def pixelSize (scale : ℚ) : ℚ := 1 / scale

/-- Modelled from the spec: `KDecoration3::snapToPixelGrid(value, scale)`
(not in the repository sources) snaps a logical length to the device pixel
grid at the given display scale. -/
def snapToPixelGrid (value scale : ℚ) : ℚ := ((round (value * scale) : ℤ) : ℚ) / scale

/-! ## Colors

`QColor` values the decoration produces are modelled symbolically: a color
is either the invalid default-constructed `QColor()`, a host palette color
indexed by `(ColorGroup, ColorRole)`, a `KColorUtils::mix` of two colors,
or one of the named `QColorConstants` colors with an alpha channel. -/

inductive ColorGroup
  | active
  | inactive
deriving DecidableEq, Repr

inductive ColorRole
  | titleBar
  | foreground
deriving DecidableEq, Repr

inductive NamedColor
  | red
  | yellow
  | green
  | lightGray
deriving DecidableEq, Repr

inductive Color
  | invalid
  | host (g : ColorGroup) (r : ColorRole)
  | mix (a b : Color) (t : ℚ)
  | named (c : NamedColor) (alpha : ℤ)
deriving DecidableEq, Repr

/-- `QColor::isValid()`: every color the model builds is valid except the
default-constructed `QColor()`. -/
def Color.isValid : Color → Bool
  | .invalid => false
  | _ => true

/-! ## Decoration state and title-bar color (`glassdecoration.cpp`) -/

/-- The window/decoration state read by `Decoration::titleBarColor`,
`Decoration::fontColor` and the button color functions: whether the title
bar is hidden, whether the decoration's active-state animation
(`m_animation`) is running, the window activity flag and the animation
opacity `m_opacity`. -/
structure DecoState where
  hideTitleBar : Bool
  animationRunning : Bool
  active : Bool
  opacity : ℚ
deriving DecidableEq, Repr

/-- `Decoration::titleBarColor` (glassdecoration.cpp:162-171). -/
def Decoration.titleBarColor (d : DecoState) : Color :=
  if d.hideTitleBar then
    .host .inactive .titleBar
  else if d.animationRunning then
    .mix (.host .inactive .titleBar) (.host .active .titleBar) d.opacity
  else
    .host (if d.active then .active else .inactive) .titleBar

/-- `Decoration::fontColor` (glassdecoration.cpp:189-193). -/
def Decoration.fontColor (d : DecoState) : Color :=
  .host (if d.active then .active else .inactive) .foreground

/-! ## Border size (`Decoration::borderSize`, glassdecoration.cpp:338-389) -/

/-- A border-size category. The source switches over either
`InternalSettings::borderSize()` or the host `settings()->borderSize()`;
both enums have the same nine categories and the two `switch` statements
have identical bodies. `unmapped` stands for any integer value outside the
named enumerators, which falls into the `default:` label. -/
inductive BorderSizeCategory
  | borderNone
  | borderNoSides
  | borderTiny
  | borderNormal
  | borderLarge
  | borderVeryLarge
  | borderHuge
  | borderVeryHuge
  | borderOversized
  | unmapped
deriving DecidableEq, Repr

/-- The `switch` body shared by both branches of `Decoration::borderSize`.
The `default:` label sits on the `BorderTiny` case, so `unmapped` behaves
as tiny. -/
def Decoration.borderSizeSwitch (cat : BorderSizeCategory) (bottom : Bool)
    (baseSize scale : ℚ) : ℚ :=
  match cat with
  | .borderNone => 0
  | .borderNoSides => if bottom then snapToPixelGrid (max 4 baseSize) scale else 0
  | .borderTiny => if bottom then snapToPixelGrid (max 4 baseSize) scale else baseSize
  | .unmapped => if bottom then snapToPixelGrid (max 4 baseSize) scale else baseSize
  | .borderNormal => baseSize * 2
  | .borderLarge => baseSize * 3
  | .borderVeryLarge => baseSize * 4
  | .borderHuge => baseSize * 5
  | .borderVeryHuge => baseSize * 6
  | .borderOversized => baseSize * 10

/-- `Decoration::borderSize(bottom, scale)`. `internalMaskHasBorderSize`
models `m_internalSettings && (m_internalSettings->mask() & BorderSize)`:
when true the internal-settings category is used, otherwise the host
settings category. `smallSpacing` is `settings()->smallSpacing()`. -/
def Decoration.borderSize (internalMaskHasBorderSize : Bool)
    (internalCat settingsCat : BorderSizeCategory) (bottom : Bool)
    (smallSpacing scale : ℚ) : ℚ :=
  let baseSize := max (pixelSize scale) (snapToPixelGrid smallSpacing scale)
  if internalMaskHasBorderSize then
    Decoration.borderSizeSwitch internalCat bottom baseSize scale
  else
    Decoration.borderSizeSwitch settingsCat bottom baseSize scale

/-- The local `baseSize` of `Decoration::borderSize`. -/
def borderBaseSize (smallSpacing scale : ℚ) : ℚ :=
  max (pixelSize scale) (snapToPixelGrid smallSpacing scale)

/-! ## Window and title-bar outline paths
(`Decoration::calculateWindowAndTitleBarShapes`, glassdecoration.cpp:266-308) -/

/-- A `QRect`/`QRectF`: origin plus size. -/
structure Rect where
  x : ℚ
  y : ℚ
  w : ℚ
  h : ℚ
deriving DecidableEq, Repr

/-- `QRectF::adjusted(dx1, dy1, dx2, dy2)`: moves the left/top edges by
`dx1`/`dy1` and the right/bottom edges by `dx2`/`dy2`. -/
def Rect.adjusted (r : Rect) (dx1 dy1 dx2 dy2 : ℚ) : Rect :=
  ⟨r.x + dx1, r.y + dy1, r.w - dx1 + dx2, r.h - dy1 + dy2⟩

/-- A `QPainterPath` built by the decoration, modelled as the sequence of
path operations applied to it. -/
inductive PPath
  | empty
  | addRect (p : PPath) (r : Rect)
  | addRoundedRect (p : PPath) (r : Rect) (rx ry : ℚ)
  | intersected (p clip : PPath)
deriving DecidableEq, Repr

/-- Inputs of `Decoration::calculateWindowAndTitleBarShapes`. -/
structure ShapeArgs where
  windowShapeOnly : Bool
  shaded : Bool
  maximized : Bool
  alphaSupported : Bool
  isLeftEdge : Bool
  isTopEdge : Bool
  isRightEdge : Bool
  width : ℚ
  borderTop : ℚ
  cornerRadius : ℚ
  /-- the full decoration `rect()` -/
  windowRect : Rect
  /-- the value of `m_titleBarPath` before the call -/
  oldTitleBarPath : PPath
deriving Repr

/-- The two paths produced by `calculateWindowAndTitleBarShapes`. -/
structure Shapes where
  titleBarPath : PPath
  windowPath : PPath
deriving DecidableEq, Repr

/-- `Decoration::calculateWindowAndTitleBarShapes(windowShapeOnly)`
(glassdecoration.cpp:266-308). -/
def Decoration.calculateWindowAndTitleBarShapes (a : ShapeArgs) : Shapes :=
  let titleRect : Rect := ⟨0, 0, a.width, a.borderTop⟩
  let r := a.cornerRadius
  let titleBarPath :=
    if !a.windowShapeOnly || a.shaded then
      if a.maximized || !a.alphaSupported then
        PPath.empty.addRect titleRect
      else if a.shaded then
        PPath.empty.addRoundedRect titleRect r r
      else
        (PPath.empty.addRoundedRect
            (titleRect.adjusted (if a.isLeftEdge then -r else 0)
              (if a.isTopEdge then -r else 0)
              (if a.isRightEdge then r else 0) r) r r).intersected
          (PPath.empty.addRect titleRect)
    else
      a.oldTitleBarPath
  let windowPath :=
    if !a.shaded then
      if a.alphaSupported && !a.maximized then
        PPath.empty.addRoundedRect a.windowRect r r
      else
        PPath.empty.addRect a.windowRect
    else
      titleBarPath
  ⟨titleBarPath, windowPath⟩

/-! ## Borders (`Decoration::recalculateBorders`, glassdecoration.cpp:406-446) -/

/-- A `QMarginsF`. -/
structure MarginsQ where
  left : ℚ
  top : ℚ
  right : ℚ
  bottom : ℚ
deriving DecidableEq, Repr

/-- The `setBorders` part of `Decoration::recalculateBorders`
(glassdecoration.cpp:406-429). `hide` is `hideTitleBar()`; `fontHeight`
is `QFontMetrics(s->font()).height()`; `buttonSize` is the result of
`Decoration::buttonSize()`; `bottomMarginM` is the
`Metrics::TitleBar_BottomMargin` constant (declared in a header that is
not part of the sources). -/
def Decoration.recalculateBorders (hide internalMaskHasBorderSize : Bool)
    (internalCat settingsCat : BorderSizeCategory)
    (smallSpacing scale : ℚ) (fontHeight buttonSize bottomMarginM : ℤ) : MarginsQ :=
  let left := Decoration.borderSize internalMaskHasBorderSize internalCat settingsCat
    false smallSpacing scale
  let right := Decoration.borderSize internalMaskHasBorderSize internalCat settingsCat
    false smallSpacing scale
  let bottom := Decoration.borderSize internalMaskHasBorderSize internalCat settingsCat
    true smallSpacing scale
  let top :=
    if hide then bottom
    else
      snapToPixelGrid ((max fontHeight buttonSize : ℤ) : ℚ) scale +
        snapToPixelGrid (smallSpacing * 2 * (bottomMarginM : ℚ)) scale
  ⟨left, top, right, bottom⟩

/-! ## Buttons (`glassbutton.cpp`) -/

/-- `KDecoration3::DecorationButtonType`, the button kinds the source
switches over. -/
inductive DecorationButtonType
  | menu
  | applicationMenu
  | onAllDesktops
  | minimize
  | maximize
  | close
  | contextHelp
  | shade
  | keepBelow
  | keepAbove
  | spacer
deriving DecidableEq, Repr

/-- The per-button state read by `Button::foregroundColor`,
`Button::backgroundColor` and `Button::drawIcon`: the button type, the
interaction flags, and the button's own animation (`m_animation`,
`m_opacity`). -/
structure ButtonState where
  type : DecorationButtonType
  pressed : Bool
  hovered : Bool
  checked : Bool
  animationRunning : Bool
  opacity : ℚ
deriving DecidableEq, Repr

/-- `Button::foregroundColor` (glassbutton.cpp:299-324). `deco` is
`qobject_cast<Decoration *>(decoration())` — `none` models a null cast,
which yields the invalid `QColor()`. `outlineCloseButton` is
`d->internalSettings()->outlineCloseButton()`. -/
def Button.foregroundColor (deco : Option DecoState) (outlineCloseButton : Bool)
    (b : ButtonState) : Color :=
  match deco with
  | none => .invalid
  | some d =>
    if b.pressed then
      Decoration.titleBarColor d
    else if b.type = .close ∧ outlineCloseButton = true then
      Decoration.titleBarColor d
    else if (b.type = .keepBelow ∨ b.type = .keepAbove ∨ b.type = .shade) ∧
        b.checked = true then
      Decoration.titleBarColor d
    else if b.animationRunning then
      .mix (Decoration.fontColor d) (Decoration.titleBarColor d) b.opacity
    else if b.hovered then
      Decoration.titleBarColor d
    else
      Decoration.fontColor d

/-- `Button::backgroundColor` (glassbutton.cpp:327-387). The window
activity flag is `d.active` (the source reads `d->window()->isActive()`). -/
def Button.backgroundColor (deco : Option DecoState) (b : ButtonState) : Color :=
  match deco with
  | none => .invalid
  | some d =>
    if d.active then
      if b.pressed then
        match b.type with
        | .close => .named .red 255
        | .minimize => .named .yellow 255
        | .maximize => .named .green 255
        | _ => .mix (Decoration.titleBarColor d) (Decoration.fontColor d) (3 / 10)
      else
        let alpha : ℤ := if b.hovered then 192 else 128
        match b.type with
        | .close => .named .red alpha
        | .minimize => .named .yellow alpha
        | .maximize => .named .green alpha
        | _ => .invalid
    else
      match b.type with
      | .close => .named .lightGray 128
      | .minimize => .named .lightGray 128
      | .maximize => .named .lightGray 128
      | _ => .invalid

/-! ## Button glyph drawing (`Button::drawIcon`, glassbutton.cpp:155-296) -/

/-- A `QPointF` passed to the painter. -/
structure PointQ where
  x : ℚ
  y : ℚ
deriving DecidableEq, Repr

/-- Segments of the `QPainterPath` built for the ContextHelp glyph. -/
inductive PathSeg
  | moveTo (p : PointQ)
  | arcTo (r : Rect) (startAngle sweepLength : ℚ)
  | cubicTo (c1 c2 endPoint : PointQ)
deriving DecidableEq, Repr

/-- A painter call issued by `Button::drawIcon`. -/
inductive DrawCmd
  | drawLine (p q : PointQ)
  | drawPolyline (ps : List PointQ)
  | drawPolygon (ps : List PointQ)
  | drawEllipse (r : Rect)
  | drawRect (r : Rect)
  | drawPath (segs : List PathSeg)
deriving DecidableEq, Repr

/-- The glyph (`render mark`) part of `Button::drawIcon`: the `switch` on
`type()` at glassbutton.cpp:187-294, as the list of painter calls it
issues on the 40x40 logical canvas. The Close, Maximize and Minimize
cases contain only commented-out drawing code (under a
`create different forground images for the traffic lights` TODO), so they
issue no calls. `bg` is `this->backgroundColor()` and `deco` the
decoration binding, both read by the checked OnAllDesktops case for its
center dot. -/
def Button.drawIconGlyph (b : ButtonState) (bg : Color) (deco : Option DecoState) :
    List DrawCmd :=
  match b.type with
  | .close => []
  | .maximize => []
  | .minimize => []
  | .onAllDesktops =>
    if b.checked then
      let dotColor :=
        match deco with
        | some d => if bg.isValid then bg else Decoration.titleBarColor d
        | none => bg
      DrawCmd.drawEllipse ⟨6, 6, 24, 24⟩ ::
        (if dotColor.isValid then [DrawCmd.drawEllipse ⟨16, 16, 4, 4⟩] else [])
    else
      [DrawCmd.drawPolygon [⟨13, 13⟩, ⟨24, 6⟩, ⟨30, 12⟩, ⟨19, 22⟩],
        DrawCmd.drawLine ⟨11, 15⟩ ⟨21, 25⟩,
        DrawCmd.drawLine ⟨24, 12⟩ ⟨9, 27⟩]
  | .shade =>
    if b.checked then
      [DrawCmd.drawLine ⟨8, 11⟩ ⟨28, 11⟩,
        DrawCmd.drawPolyline [⟨8, 16⟩, ⟨18, 26⟩, ⟨28, 16⟩]]
    else
      [DrawCmd.drawLine ⟨8, 11⟩ ⟨28, 11⟩,
        DrawCmd.drawPolyline [⟨8, 26⟩, ⟨18, 16⟩, ⟨28, 26⟩]]
  | .keepBelow =>
    [DrawCmd.drawPolyline [⟨8, 10⟩, ⟨18, 20⟩, ⟨28, 10⟩],
      DrawCmd.drawPolyline [⟨8, 18⟩, ⟨18, 28⟩, ⟨28, 18⟩]]
  | .keepAbove =>
    [DrawCmd.drawPolyline [⟨8, 18⟩, ⟨18, 8⟩, ⟨28, 18⟩],
      DrawCmd.drawPolyline [⟨8, 26⟩, ⟨18, 16⟩, ⟨28, 26⟩]]
  | .applicationMenu =>
    [DrawCmd.drawRect ⟨7, 9, 22, 2⟩,
      DrawCmd.drawRect ⟨7, 17, 22, 2⟩,
      DrawCmd.drawRect ⟨7, 25, 22, 2⟩]
  | .contextHelp =>
    [DrawCmd.drawPath
        [PathSeg.moveTo ⟨10, 12⟩,
          PathSeg.arcTo ⟨10, 7, 16, 10⟩ 180 (-180),
          PathSeg.cubicTo ⟨25, 19⟩ ⟨18, 15⟩ ⟨18, 23⟩],
      DrawCmd.drawRect ⟨18, 30, 1, 1⟩]
  | _ => []

/-- The output of `Button::drawIcon`: the painter is translated to the
button rect and scaled by `width / 40` (the 40x40 logical canvas), the
background ellipse is filled when the background color is valid, and the
glyph is stroked with pen width `PenWidth::Symbol * max(1, 40 / width)`
when the foreground color is valid. -/
structure IconRender where
  canvasScale : ℚ
  background : List DrawCmd
  penWidth : ℚ
  glyph : List DrawCmd
deriving DecidableEq, Repr

/-- `Button::drawIcon` (glassbutton.cpp:155-296). `width` is the width of
`geometry().marginsRemoved(m_padding)`; `penWidthSymbol` is the
`PenWidth::Symbol` constant (declared in a header that is not part of the
sources). -/
def Button.drawIcon (b : ButtonState) (width penWidthSymbol : ℚ)
    (deco : Option DecoState) (outlineCloseButton : Bool) : IconRender :=
  let bg := Button.backgroundColor deco b
  let fg := Button.foregroundColor deco outlineCloseButton b
  { canvasScale := width / 40
    background := if bg.isValid then [DrawCmd.drawEllipse ⟨0, 0, 36, 36⟩] else []
    penWidth := penWidthSymbol * max 1 (40 / width)
    glyph := if fg.isValid then Button.drawIconGlyph b bg deco else [] }

/-! ## Animation controllers
(`Decoration::updateAnimationState`, glassdecoration.cpp:324-335;
`Button::updateAnimationState`, glassbutton.cpp:411-420)

Both controllers are `QVariantAnimation` instances configured with start
value 0.0, end value 1.0 and an InOutQuad easing curve. The
`QVariantAnimation` class itself is an external Qt collaborator, so its
state machine is modelled from the spec's AnimationController contract. -/

/-- `QAbstractAnimation::Direction`. -/
inductive AnimDirection
  | forward
  | backward
deriving DecidableEq, Repr

/-- Modelled from the spec: the AnimationController state — progress in
[0,1], a direction, and a running flag ({Idle, Running(direction)}). -/
structure AnimState where
  progress : ℚ
  direction : AnimDirection
  running : Bool
deriving DecidableEq, Repr

/-- Modelled from the spec: retargeting the direction of the controller
"must not discard accumulated progress" — it only changes the direction,
continuing from the current value (`QVariantAnimation::setDirection`). -/
def AnimState.setDirection (s : AnimState) (d : AnimDirection) : AnimState :=
  { s with direction := d }

/-- Modelled from the spec: `start(direction)` begins interpolating
"from current value" toward the direction's endpoint; a controller that
is already Running is left untouched (`QVariantAnimation::start`, which
the source only invokes when the state is not Running). -/
def AnimState.start (s : AnimState) : AnimState :=
  if s.running then s else { s with running := true }

/-- Modelled from the spec: one animation-clock advance by a normalized
step; while Running, progress moves toward the direction's endpoint,
clamped to [0,1]; upon reaching the endpoint the controller transitions
to Idle and progress is retained. -/
def AnimState.tick (s : AnimState) (step : ℚ) : AnimState :=
  if s.running then
    match s.direction with
    | .forward =>
      let p := min 1 (s.progress + step)
      { s with progress := p, running := decide (p ≠ 1) }
    | .backward =>
      let p := max 0 (s.progress - step)
      { s with progress := p, running := decide (p ≠ 0) }
  else s

/-- `Decoration::updateAnimationState` (glassdecoration.cpp:324-335):
when animations are enabled, set the direction from the activity flag and
start the controller only if it is not already Running (the disabled
branch merely schedules a repaint). -/
def Decoration.updateAnimationState (animationsEnabled active : Bool)
    (s : AnimState) : AnimState :=
  if animationsEnabled then
    let s1 := s.setDirection (if active then .forward else .backward)
    if s1.running then s1 else s1.start
  else s

/-- `Button::updateAnimationState(hovered)` (glassbutton.cpp:411-420):
no-op unless the decoration binding is live and animations are enabled;
otherwise set the direction from the hover flag and start only if the
controller is not already Running. -/
def Button.updateAnimationState (decorationBound animationsEnabled hovered : Bool)
    (s : AnimState) : AnimState :=
  if decorationBound && animationsEnabled then
    let s1 := s.setDirection (if hovered then .forward else .backward)
    if s1.running then s1 else s1.start
  else s

/-! ## Caption rectangle (`Decoration::captionRect`, glassdecoration.cpp:593-643) -/

/-- `InternalSettings::titleAlignment()` categories; `unmapped` is any
value outside the named enumerators, which hits the `default:` label
shared with `AlignCenterFullWidth`. -/
inductive TitleAlignment
  | alignLeft
  | alignRight
  | alignCenter
  | alignCenterFullWidth
  | unmapped
deriving DecidableEq, Repr

/-- The `Qt::Alignment` values `captionRect` returns. -/
inductive CaptionAlignment
  | vcenterLeft
  | vcenterRight
  | center
deriving DecidableEq, Repr

/-- Inputs of `Decoration::captionRect`. `sideMarginM` and `topMarginM`
are the `Metrics::TitleBar_SideMargin` / `Metrics::TitleBar_TopMargin`
constants (declared in a header that is not part of the sources);
`boundingWidth` is `settings()->fontMetrics().boundingRect(caption).width()`. -/
structure CaptionArgs where
  hideTitleBar : Bool
  titleAlignment : TitleAlignment
  /-- `size().width()` -/
  width : ℚ
  /-- `window()->scale()` -/
  scale : ℚ
  smallSpacing : ℚ
  sideMarginM : ℚ
  topMarginM : ℚ
  leftButtonsEmpty : Bool
  /-- `m_leftButtons->geometry().x()` -/
  leftGeomX : ℚ
  /-- `m_leftButtons->geometry().width()` -/
  leftGeomW : ℚ
  rightButtonsEmpty : Bool
  /-- `m_rightButtons->geometry().x()` -/
  rightGeomX : ℚ
  /-- `borderTop()` -/
  borderTop : ℚ
  /-- `Decoration::buttonSize()` -/
  buttonSize : ℚ
  boundingWidth : ℚ
deriving Repr

/-- `Decoration::captionHeight` (glassdecoration.cpp:587-590). -/
def Decoration.captionHeight (a : CaptionArgs) : ℚ :=
  if a.hideTitleBar then a.borderTop else a.buttonSize

/-- The local `leftOffset` of `captionRect` (glassdecoration.cpp:599-603). -/
def captionLeftOffset (a : CaptionArgs) : ℚ :=
  snapToPixelGrid
    (if a.leftButtonsEmpty then a.sideMarginM * a.smallSpacing
      else a.leftGeomX + a.leftGeomW + a.sideMarginM * a.smallSpacing)
    a.scale

/-- The local `rightOffset` of `captionRect` (glassdecoration.cpp:605-608). -/
def captionRightOffset (a : CaptionArgs) : ℚ :=
  snapToPixelGrid
    (if a.rightButtonsEmpty then a.sideMarginM * a.smallSpacing
      else a.width - a.rightGeomX + a.sideMarginM * a.smallSpacing)
    a.scale

/-- The local `yOffset` of `captionRect` (glassdecoration.cpp:610). -/
def captionYOffset (a : CaptionArgs) : ℚ :=
  snapToPixelGrid (a.smallSpacing * a.topMarginM) a.scale

/-- The local `maxRect` of `captionRect` (glassdecoration.cpp:611). -/
def captionMaxRect (a : CaptionArgs) : Rect :=
  ⟨captionLeftOffset a, captionYOffset a,
    a.width - captionLeftOffset a - captionRightOffset a, Decoration.captionHeight a⟩

/-- The local `fullRect` of the full-width case (glassdecoration.cpp:626). -/
def captionFullRect (a : CaptionArgs) : Rect :=
  ⟨0, captionYOffset a, a.width, Decoration.captionHeight a⟩

/-- The left edge of the centered text bounding rect: the bounding rect
keeps the caption's text width and is moved so that its left edge is
`(width - boundingWidth) / 2` (glassdecoration.cpp:627-632). -/
def captionBoundingLeft (a : CaptionArgs) : ℚ :=
  (a.width - a.boundingWidth) / 2

/-- `Decoration::captionRect` (glassdecoration.cpp:593-643). In the
full-width case the source compares `boundingRect.left() < leftOffset`
and `boundingRect.right() > size().width() - rightOffset`, where
`boundingRect.right()` is its left edge plus the text width. -/
def Decoration.captionRect (a : CaptionArgs) : Rect × CaptionAlignment :=
  if a.hideTitleBar then (⟨0, 0, 0, 0⟩, .center)
  else
    match a.titleAlignment with
    | .alignLeft => (captionMaxRect a, .vcenterLeft)
    | .alignRight => (captionMaxRect a, .vcenterRight)
    | .alignCenter => (captionMaxRect a, .center)
    | _ =>
      if captionBoundingLeft a < captionLeftOffset a then
        (captionMaxRect a, .vcenterLeft)
      else if captionBoundingLeft a + a.boundingWidth > a.width - captionRightOffset a then
        (captionMaxRect a, .vcenterRight)
      else
        (captionFullRect a, .center)

/-! ## Button layout (`Decoration::updateButtonsGeometry`, glassdecoration.cpp:463-536) -/

/-- The per-button data `updateButtonsGeometry` writes: the geometry rect,
the `FlagFirstInList` flag, and the extra left/right hit paddings. -/
structure BtnGeom where
  geometry : Rect
  firstInList : Bool
  leftPadding : ℚ
  rightPadding : ℚ
deriving DecidableEq, Repr

/-- The first pass of `updateButtonsGeometry` over every button
(glassdecoration.cpp:469-482): geometry becomes a `bWidth x bHeight` rect
at the origin, where `bWidth` and `bHeight` are the C++ `int` truncations
of the (non-negative) preferred width and of the preferred height plus
the vertical offset. -/
def baseButton (vOff : ℤ) (pref : ℚ × ℚ) : BtnGeom :=
  { geometry := ⟨0, 0, ((⌊pref.1⌋ : ℤ) : ℚ), ((⌊pref.2 + (vOff : ℚ)⌋ : ℤ) : ℚ)⟩
    firstInList := false
    leftPadding := 0
    rightPadding := 0 }

/-- Applies `f` to the last element of a list (the source mutates
`m_rightButtons->buttons().back()`). -/
def modifyLast {α : Type} (f : α → α) : List α → List α
  | [] => []
  | [x] => [f x]
  | x :: y :: rest => x :: modifyLast f (y :: rest)

/-- Inputs of `Decoration::updateButtonsGeometry`. `leftPrefs` and
`rightPrefs` hold each group's buttons' preferred sizes in group order;
`sideMarginM`, `topMarginM` and `buttonSpacingM` are the
`Metrics::TitleBar_SideMargin` / `TitleBar_TopMargin` /
`TitleBar_ButtonSpacing` constants (declared in a header that is not part
of the sources); `rightGroupWidth` is `m_rightButtons->geometry().width()`
as maintained by the host `DecorationButtonGroup` when the group position
is set. -/
structure ButtonsGeometryArgs where
  isTopEdge : Bool
  isLeftEdge : Bool
  isRightEdge : Bool
  smallSpacing : ℤ
  sideMarginM : ℤ
  topMarginM : ℤ
  buttonSpacingM : ℤ
  borderLeft : ℚ
  borderRight : ℚ
  width : ℚ
  leftPrefs : List (ℚ × ℚ)
  rightPrefs : List (ℚ × ℚ)
  rightGroupWidth : ℚ
deriving Repr

/-- The local `verticalOffset` of the per-button pass
(glassdecoration.cpp:472). -/
def buttonsVOffset (a : ButtonsGeometryArgs) : ℤ :=
  if a.isTopEdge then a.smallSpacing * a.topMarginM else 0

/-- The local `vPadding` of the group-placement passes
(glassdecoration.cpp:490,516). -/
def buttonsVPadding (a : ButtonsGeometryArgs) : ℤ :=
  if a.isTopEdge then 0 else a.smallSpacing * a.topMarginM

/-- The local `hPadding` of the group-placement passes
(glassdecoration.cpp:491,517). -/
def buttonsHPadding (a : ButtonsGeometryArgs) : ℤ :=
  a.smallSpacing * a.sideMarginM

/-- The layout `updateButtonsGeometry` produces: each group's adjusted
button data, the group positions (`setPos`; `none` when the group is
empty and its position is left untouched) and the inter-button spacing
(`setSpacing`, likewise only set for a non-empty group). -/
structure ButtonsLayout where
  left : List BtnGeom
  right : List BtnGeom
  leftPos : Option (ℚ × ℚ)
  rightPos : Option (ℚ × ℚ)
  leftSpacing : Option ℤ
  rightSpacing : Option ℤ
deriving DecidableEq, Repr

/-- `Decoration::updateButtonsGeometry` (glassdecoration.cpp:463-536). -/
def Decoration.updateButtonsGeometry (a : ButtonsGeometryArgs) : ButtonsLayout :=
  let leftBase := a.leftPrefs.map (baseButton (buttonsVOffset a))
  let rightBase := a.rightPrefs.map (baseButton (buttonsVOffset a))
  let spacing : ℤ := a.smallSpacing * a.buttonSpacingM
  let leftPart : List BtnGeom × Option (ℚ × ℚ) :=
    match leftBase with
    | [] => ([], none)
    | b :: rest =>
      if a.isLeftEdge then
        ({ b with
            geometry := b.geometry.adjusted (-(buttonsHPadding a : ℚ)) 0 0 0
            firstInList := true
            leftPadding := (buttonsHPadding a : ℚ) } :: rest,
          some (0, (buttonsVPadding a : ℚ)))
      else
        (b :: rest, some ((buttonsHPadding a : ℚ) + a.borderLeft, (buttonsVPadding a : ℚ)))
  let rightPart : List BtnGeom × Option (ℚ × ℚ) :=
    match rightBase with
    | [] => ([], none)
    | b :: rest =>
      if a.isRightEdge then
        (modifyLast
            (fun bt =>
              { bt with
                  geometry := bt.geometry.adjusted 0 0 (buttonsHPadding a : ℚ) 0
                  firstInList := true
                  rightPadding := (buttonsHPadding a : ℚ) })
            (b :: rest),
          some (a.width - a.rightGroupWidth, (buttonsVPadding a : ℚ)))
      else
        (b :: rest,
          some (a.width - a.rightGroupWidth - (buttonsHPadding a : ℚ) - a.borderRight,
            (buttonsVPadding a : ℚ)))
  { left := leftPart.1
    right := rightPart.1
    leftPos := leftPart.2
    rightPos := rightPart.2
    leftSpacing := if leftBase.isEmpty then none else some spacing
    rightSpacing := if rightBase.isEmpty then none else some spacing }

end Glass

namespace Glass

/-! # Theorems -/

/-- `modifyLast` rewrites exactly the last element. -/
theorem modifyLast_getLast? {α : Type} (f : α → α) :
    ∀ l : List α, (modifyLast f l).getLast? = l.getLast?.map f
  | [] => rfl
  | [_] => rfl
  | x :: y :: rest => by
    cases rest with
    | nil => simp [modifyLast]
    | cons z rest =>
      have ih := modifyLast_getLast? f (y :: z :: rest)
      simp only [modifyLast, List.getLast?_cons_cons] at ih ⊢
      exact ih

/-- `getLast?` commutes with `map`. -/
theorem map_getLast? {α β : Type} (g : α → β) :
    ∀ l : List α, (l.map g).getLast? = l.getLast?.map g
  | [] => rfl
  | [_] => rfl
  | x :: y :: rest => by
    simp only [List.map_cons, List.getLast?_cons_cons]
    exact map_getLast? g (y :: rest)

/-- C10: whenever the title bar is hidden, `Decoration::titleBarColor`
returns the host Inactive title-bar color, for every activity flag and
every animation state — the active/inactive cross-fade is applied only
when the title bar is visible. -/
theorem titleBarColor_hidden_inactive (d : DecoState)
    (h : d.hideTitleBar = true) :
    Decoration.titleBarColor d = Color.host ColorGroup.inactive ColorRole.titleBar := by
  simp [Decoration.titleBarColor, h]

/-- Witness for C10 at a concrete state that is active with a running
animation. -/
theorem titleBarColor_hidden_inactive_witness :
    (DecoState.mk true true true (1/2)).hideTitleBar = true ∧
      Decoration.titleBarColor (DecoState.mk true true true (1/2)) =
        Color.host ColorGroup.inactive ColorRole.titleBar :=
  ⟨rfl, titleBarColor_hidden_inactive (DecoState.mk true true true (1/2)) rfl⟩

/-- C4: after `calculateWindowAndTitleBarShapes`, whenever the window is
shaded the window outline path equals the title-bar outline path, for
every combination of the maximized and alpha-channel-support flags (and
all other inputs). -/
theorem windowPath_eq_titleBarPath_of_shaded (a : ShapeArgs)
    (h : a.shaded = true) :
    (Decoration.calculateWindowAndTitleBarShapes a).windowPath =
      (Decoration.calculateWindowAndTitleBarShapes a).titleBarPath := by
  simp [Decoration.calculateWindowAndTitleBarShapes, h]

/-- C3: for every display scale and both settings sources, `borderSize`
returns 0 (both bottom and sides) for `BorderNone`; sides 0 and bottom
`snap(max 4 base)` for `BorderNoSides`; bottom `snap(max 4 base)` and
sides `base` (unsnapped) for `BorderTiny` and for any unmapped category
(the `default:` fallback); and `base` times 2, 3, 4, 5, 6 and 10 for
Normal, Large, VeryLarge, Huge, VeryHuge and Oversized respectively,
where `base = max(onePixelAtScale, snapped smallSpacing)`. -/
theorem borderSize_spec (mask : Bool) (ic sc : BorderSizeCategory)
    (ss scale : ℚ) (hs : 0 < scale) :
    ((if mask then ic else sc) = .borderNone →
      ∀ bottom, Decoration.borderSize mask ic sc bottom ss scale = 0) ∧
    ((if mask then ic else sc) = .borderNoSides →
      Decoration.borderSize mask ic sc false ss scale = 0 ∧
      Decoration.borderSize mask ic sc true ss scale =
        snapToPixelGrid (max 4 (borderBaseSize ss scale)) scale) ∧
    (((if mask then ic else sc) = .borderTiny ∨ (if mask then ic else sc) = .unmapped) →
      Decoration.borderSize mask ic sc true ss scale =
        snapToPixelGrid (max 4 (borderBaseSize ss scale)) scale ∧
      Decoration.borderSize mask ic sc false ss scale = borderBaseSize ss scale) ∧
    ((if mask then ic else sc) = .borderNormal →
      ∀ bottom, Decoration.borderSize mask ic sc bottom ss scale =
        borderBaseSize ss scale * 2) ∧
    ((if mask then ic else sc) = .borderLarge →
      ∀ bottom, Decoration.borderSize mask ic sc bottom ss scale =
        borderBaseSize ss scale * 3) ∧
    ((if mask then ic else sc) = .borderVeryLarge →
      ∀ bottom, Decoration.borderSize mask ic sc bottom ss scale =
        borderBaseSize ss scale * 4) ∧
    ((if mask then ic else sc) = .borderHuge →
      ∀ bottom, Decoration.borderSize mask ic sc bottom ss scale =
        borderBaseSize ss scale * 5) ∧
    ((if mask then ic else sc) = .borderVeryHuge →
      ∀ bottom, Decoration.borderSize mask ic sc bottom ss scale =
        borderBaseSize ss scale * 6) ∧
    ((if mask then ic else sc) = .borderOversized →
      ∀ bottom, Decoration.borderSize mask ic sc bottom ss scale =
        borderBaseSize ss scale * 10) := by
  cases mask <;>
    refine ⟨?_, ?_, ?_, ?_, ?_, ?_, ?_, ?_, ?_⟩ <;>
    intro h <;>
    first
      | (intro bottom
         simp only [if_true, if_false, Bool.false_eq_true] at h
         subst h
         simp [Decoration.borderSize, Decoration.borderSizeSwitch, borderBaseSize])
      | (rcases h with h | h <;>
          · simp only [if_true, if_false, Bool.false_eq_true] at h
            subst h
            simp [Decoration.borderSize, Decoration.borderSizeSwitch, borderBaseSize])
      | (simp only [if_true, if_false, Bool.false_eq_true] at h
         subst h
         simp [Decoration.borderSize, Decoration.borderSizeSwitch, borderBaseSize])

/-- Witness for C3: scale 1, smallSpacing 2, internal settings mapped,
category BorderNone gives a zero bottom border. -/
theorem borderSize_spec_witness :
    (0 : ℚ) < 1 ∧
      Decoration.borderSize true .borderNone .borderNone true 2 1 = 0 :=
  ⟨by norm_num,
    (borderSize_spec true .borderNone .borderNone 2 1 (by norm_num)).1 rfl true⟩

/-- C8: after `recalculateBorders`, if the title bar is hidden the top
border equals the bottom border; otherwise the top border equals the
snapped `max(fontHeight, buttonSize)` plus the snapped quantity
`2 * smallSpacing * bottomMarginFactor`. -/
theorem recalculateBorders_top (hide mask : Bool) (ic sc : BorderSizeCategory)
    (ss scale : ℚ) (fh bs bm : ℤ) :
    (hide = true →
      (Decoration.recalculateBorders hide mask ic sc ss scale fh bs bm).top =
        (Decoration.recalculateBorders hide mask ic sc ss scale fh bs bm).bottom) ∧
    (hide = false →
      (Decoration.recalculateBorders hide mask ic sc ss scale fh bs bm).top =
        snapToPixelGrid ((max fh bs : ℤ) : ℚ) scale +
          snapToPixelGrid (2 * ss * (bm : ℚ)) scale) := by
  constructor
  · intro h
    simp [Decoration.recalculateBorders, h]
  · intro h
    simp only [Decoration.recalculateBorders, h, if_false, Bool.false_eq_true]
    have : ss * 2 * (bm : ℚ) = 2 * ss * (bm : ℚ) := by ring
    rw [this]

/-- Witness for C8 at a concrete visible title bar: scale 1, smallSpacing
2, font height 17, button size 20, bottom-margin factor 1. -/
theorem recalculateBorders_top_witness :
    ((false : Bool) = false) ∧
      (Decoration.recalculateBorders false true .borderTiny .borderTiny
          2 1 17 20 1).top =
        snapToPixelGrid ((max 17 20 : ℤ) : ℚ) 1 + snapToPixelGrid (2 * 2 * (1 : ℚ)) 1 :=
  ⟨rfl,
    (recalculateBorders_top false true .borderTiny .borderTiny 2 1 17 20 1).2 rfl⟩

/-- C5: `Button::foregroundColor` evaluates in exactly this precedence:
pressed → title-bar color; else Close with the outline-close-button
setting → title-bar color; else a checked KeepAbove/KeepBelow/Shade
button → title-bar color; else animation Running → cross-fade of the
host font color and the title-bar color by the animation progress; else
hovered → title-bar color; otherwise the host font color. -/
theorem foregroundColor_precedence (d : DecoState) (outline : Bool) (b : ButtonState) :
    (b.pressed = true →
      Button.foregroundColor (some d) outline b = Decoration.titleBarColor d) ∧
    (b.pressed = false → (b.type = .close ∧ outline = true) →
      Button.foregroundColor (some d) outline b = Decoration.titleBarColor d) ∧
    (b.pressed = false → ¬(b.type = .close ∧ outline = true) →
      ((b.type = .keepBelow ∨ b.type = .keepAbove ∨ b.type = .shade) ∧ b.checked = true) →
      Button.foregroundColor (some d) outline b = Decoration.titleBarColor d) ∧
    (b.pressed = false → ¬(b.type = .close ∧ outline = true) →
      ¬((b.type = .keepBelow ∨ b.type = .keepAbove ∨ b.type = .shade) ∧ b.checked = true) →
      b.animationRunning = true →
      Button.foregroundColor (some d) outline b =
        Color.mix (Decoration.fontColor d) (Decoration.titleBarColor d) b.opacity) ∧
    (b.pressed = false → ¬(b.type = .close ∧ outline = true) →
      ¬((b.type = .keepBelow ∨ b.type = .keepAbove ∨ b.type = .shade) ∧ b.checked = true) →
      b.animationRunning = false → b.hovered = true →
      Button.foregroundColor (some d) outline b = Decoration.titleBarColor d) ∧
    (b.pressed = false → ¬(b.type = .close ∧ outline = true) →
      ¬((b.type = .keepBelow ∨ b.type = .keepAbove ∨ b.type = .shade) ∧ b.checked = true) →
      b.animationRunning = false → b.hovered = false →
      Button.foregroundColor (some d) outline b = Decoration.fontColor d) := by
  refine ⟨?_, ?_, ?_, ?_, ?_, ?_⟩
  · intro h1
    simp only [Button.foregroundColor]
    rw [if_pos h1]
  · intro h1 h2
    simp only [Button.foregroundColor]
    rw [if_neg (by simp [h1]), if_pos h2]
  · intro h1 h2 h3
    simp only [Button.foregroundColor]
    rw [if_neg (by simp [h1]), if_neg h2, if_pos h3]
  · intro h1 h2 h3 h4
    simp only [Button.foregroundColor]
    rw [if_neg (by simp [h1]), if_neg h2, if_neg h3, if_pos h4]
  · intro h1 h2 h3 h4 h5
    simp only [Button.foregroundColor]
    rw [if_neg (by simp [h1]), if_neg h2, if_neg h3, if_neg (by simp [h4]), if_pos h5]
  · intro h1 h2 h3 h4 h5
    simp only [Button.foregroundColor]
    rw [if_neg (by simp [h1]), if_neg h2, if_neg h3, if_neg (by simp [h4]),
      if_neg (by simp [h5])]

/-- Witness for C5 at a concrete pressed close button on an active
decoration. -/
theorem foregroundColor_precedence_witness :
    (ButtonState.mk .close true false false false 0).pressed = true ∧
      Button.foregroundColor (some (DecoState.mk false false true 0)) false
          (ButtonState.mk .close true false false false 0) =
        Decoration.titleBarColor (DecoState.mk false false true 0) :=
  ⟨rfl,
    (foregroundColor_precedence (DecoState.mk false false true 0) false
      (ButtonState.mk .close true false false false 0)).1 rfl⟩

/-- C9: while the window is inactive and the button is not pressed, the
background color of every Close, Minimize and Maximize button is the
fixed neutral light-gray color at alpha 128, independent of hover; every
other button type has the invalid (absent) background color. -/
theorem backgroundColor_inactive_neutral (d : DecoState) (b : ButtonState)
    (hact : d.active = false) (hp : b.pressed = false) :
    ((b.type = .close ∨ b.type = .minimize ∨ b.type = .maximize) →
      Button.backgroundColor (some d) b = Color.named .lightGray 128) ∧
    (¬(b.type = .close ∨ b.type = .minimize ∨ b.type = .maximize) →
      Button.backgroundColor (some d) b = Color.invalid) := by
  constructor
  · rintro (h | h | h) <;> simp [Button.backgroundColor, hact, h]
  · intro h
    cases htype : b.type <;>
      first
        | exact absurd (Or.inl htype) h
        | exact absurd (Or.inr (Or.inl htype)) h
        | exact absurd (Or.inr (Or.inr htype)) h
        | simp [Button.backgroundColor, hact, htype]

/-- Witness for C9 at a concrete hovered close button on an inactive
window. -/
theorem backgroundColor_inactive_neutral_witness :
    (DecoState.mk false false false 0).active = false ∧
      (ButtonState.mk .close false true false false 0).pressed = false ∧
      Button.backgroundColor (some (DecoState.mk false false false 0))
          (ButtonState.mk .close false true false false 0) =
        Color.named .lightGray 128 :=
  ⟨rfl, rfl,
    (backgroundColor_inactive_neutral (DecoState.mk false false false 0)
        (ButtonState.mk .close false true false false 0) rfl rfl).1 (Or.inl rfl)⟩

/-- C6: for both the per-window and the per-button animation controller,
flipping the target direction while the animation is already running
never makes the progress value jump: the state stays Running at the same
progress, and a subsequent clock advance moves progress by at most the
advance step (interpolation continues from the current value). -/
theorem updateAnimationState_no_progress_jump
    (enabled active bound hovered : Bool) (s : AnimState)
    (hrun : s.running = true) (h0 : 0 ≤ s.progress) (h1 : s.progress ≤ 1) :
    ((Decoration.updateAnimationState enabled active s).progress = s.progress ∧
      (Decoration.updateAnimationState enabled active s).running = true) ∧
    ((Button.updateAnimationState bound enabled hovered s).progress = s.progress ∧
      (Button.updateAnimationState bound enabled hovered s).running = true) ∧
    (∀ step : ℚ, 0 ≤ step →
      |((Decoration.updateAnimationState enabled active s).tick step).progress -
          s.progress| ≤ step) ∧
    (∀ step : ℚ, 0 ≤ step →
      |((Button.updateAnimationState bound enabled hovered s).tick step).progress -
          s.progress| ≤ step) := by
  have hd :
      (Decoration.updateAnimationState enabled active s).progress = s.progress ∧
        (Decoration.updateAnimationState enabled active s).running = true := by
    cases enabled <;>
      simp [Decoration.updateAnimationState, AnimState.setDirection, AnimState.start, hrun]
  have hb :
      (Button.updateAnimationState bound enabled hovered s).progress = s.progress ∧
        (Button.updateAnimationState bound enabled hovered s).running = true := by
    cases enabled <;> cases bound <;>
      simp [Button.updateAnimationState, AnimState.setDirection, AnimState.start, hrun]
  have htick : ∀ t : AnimState, t.progress = s.progress → t.running = true →
      ∀ step : ℚ, 0 ≤ step → |(t.tick step).progress - s.progress| ≤ step := by
    intro t hp hr step hstep
    cases hdir : t.direction
    · have hval : (t.tick step).progress = min 1 (s.progress + step) := by
        simp [AnimState.tick, hr, hdir, hp]
      rw [hval, abs_le]
      constructor
      · have h2 : s.progress ≤ min 1 (s.progress + step) := le_min h1 (by linarith)
        linarith
      · have h2 : min 1 (s.progress + step) ≤ s.progress + step := min_le_right _ _
        linarith
    · have hval : (t.tick step).progress = max 0 (s.progress - step) := by
        simp [AnimState.tick, hr, hdir, hp]
      rw [hval, abs_le]
      constructor
      · have h2 : s.progress - step ≤ max 0 (s.progress - step) := le_max_right _ _
        linarith
      · have h2 : max 0 (s.progress - step) ≤ s.progress := max_le h0 (by linarith)
        linarith
  exact ⟨hd, hb, htick _ hd.1 hd.2, htick _ hb.1 hb.2⟩

/-- Witness for C6: a running controller at progress 1/2 retargeted from
forward to backward keeps progress 1/2 and stays running. -/
theorem updateAnimationState_no_progress_jump_witness :
    (AnimState.mk (1/2) .forward true).running = true ∧
      (0:ℚ) ≤ (AnimState.mk (1/2) .forward true).progress ∧
      (AnimState.mk (1/2) .forward true).progress ≤ 1 ∧
      (Decoration.updateAnimationState true false
          (AnimState.mk (1/2) .forward true)).progress =
        (AnimState.mk (1/2) .forward true).progress ∧
      (Button.updateAnimationState true true false
          (AnimState.mk (1/2) .forward true)).progress =
        (AnimState.mk (1/2) .forward true).progress :=
  ⟨rfl, by norm_num, by norm_num,
    (updateAnimationState_no_progress_jump true false true false
        (AnimState.mk (1/2) .forward true) rfl (by norm_num) (by norm_num)).1.1,
    (updateAnimationState_no_progress_jump true false true false
        (AnimState.mk (1/2) .forward true) rfl (by norm_num) (by norm_num)).2.1.1⟩

/-- C2 counterexample: a Close button with a valid foreground color
produces an empty glyph — the traffic-light glyphs are commented out in
the source under a TODO, so Close (likewise Maximize and Minimize) draws
no type-specific mark, contradicting the claim. -/
theorem drawIcon_close_glyph_empty :
    (Button.foregroundColor (some (DecoState.mk false false true 0)) false
        (ButtonState.mk .close false false false false 0)).isValid = true ∧
      (Button.drawIcon (ButtonState.mk .close false false false false 0) 40 1
          (some (DecoState.mk false false true 0)) false).glyph = [] := by
  constructor <;> rfl

/-- C2 (amended): `drawIcon` scales a fixed 40x40 logical canvas to the
button's pixel width and strokes with pen width
`PenWidth::Symbol * max(1, 40/width)`, so the device-space stroke never
drops below the symbol width; every button type other than Menu and
Spacer *except Close, Maximize and Minimize* strokes a non-empty
type-specific glyph when the foreground color is valid, while the Close,
Maximize and Minimize glyphs are empty (their drawing code is commented
out; only the background circle is rendered for them). -/
theorem drawIcon_spec (b : ButtonState) (deco : Option DecoState) (outline : Bool)
    (width penS : ℚ) (hw : 0 < width) (hS : 0 ≤ penS) :
    (Button.drawIcon b width penS deco outline).canvasScale = width / 40 ∧
    (Button.drawIcon b width penS deco outline).penWidth = penS * max 1 (40 / width) ∧
    penS ≤ (Button.drawIcon b width penS deco outline).penWidth *
      (Button.drawIcon b width penS deco outline).canvasScale ∧
    ((b.type = .close ∨ b.type = .maximize ∨ b.type = .minimize) →
      (Button.drawIcon b width penS deco outline).glyph = []) ∧
    ((b.type = .onAllDesktops ∨ b.type = .shade ∨ b.type = .keepBelow ∨
        b.type = .keepAbove ∨ b.type = .applicationMenu ∨ b.type = .contextHelp) →
      (Button.foregroundColor deco outline b).isValid = true →
      (Button.drawIcon b width penS deco outline).glyph ≠ []) ∧
    List.Pairwise
      (fun t1 t2 =>
        Button.drawIconGlyph (ButtonState.mk t1 false false false false 0)
            Color.invalid none ≠
          Button.drawIconGlyph (ButtonState.mk t2 false false false false 0)
            Color.invalid none)
      [.onAllDesktops, .shade, .keepBelow, .keepAbove, .applicationMenu, .contextHelp] := by
  have hw' : width ≠ 0 := ne_of_gt hw
  refine ⟨rfl, rfl, ?_, ?_, ?_, by decide⟩
  · simp only [Button.drawIcon]
    rcases le_total width 40 with hle | hge
    · have h40 : (1 : ℚ) ≤ 40 / width := by
        rw [le_div_iff₀ hw]; linarith
      rw [max_eq_right h40]
      have hkey : penS * (40 / width) * (width / 40) = penS := by
        field_simp
      rw [hkey]
    · have h40 : (40 : ℚ) / width ≤ 1 := by
        rw [div_le_one hw]; exact hge
      rw [max_eq_left h40, mul_one]
      nlinarith [mul_nonneg hS (sub_nonneg.mpr hge)]
  · rintro (h | h | h) <;> simp [Button.drawIcon, Button.drawIconGlyph, h]
  · rintro (h | h | h | h | h | h) hfg <;>
      · simp only [Button.drawIcon]
        rw [if_pos hfg]
        cases hc : b.checked <;> simp [Button.drawIconGlyph, h, hc]

/-- Witness for C2 (amended) at a concrete 20-wide close button with
symbol pen width 1. -/
theorem drawIcon_spec_witness :
    (0 : ℚ) < 20 ∧ (0 : ℚ) ≤ 1 ∧
      (Button.drawIcon (ButtonState.mk .close false false false false 0) 20 1
          (some (DecoState.mk false false true 0)) false).glyph = [] :=
  ⟨by norm_num, by norm_num,
    (drawIcon_spec (ButtonState.mk .close false false false false 0)
        (some (DecoState.mk false false true 0)) false 20 1 (by norm_num)
        (by norm_num)).2.2.2.1 (Or.inl rfl)⟩

/-- C1 counterexample: with width 40, a 20-wide caption and both offsets
10, the centered bounding box's left edge lands exactly on `leftOffset`
(10), so it does not fit *strictly* within `[leftOffset, width-rightOffset]`
— yet `captionRect` still returns the center-over-full-width alignment,
because the source compares with `<` and `>`, not `≤`/`≥`. -/
theorem captionRect_boundary_centered :
    (Decoration.captionRect
        (CaptionArgs.mk false .alignCenterFullWidth 40 1 2 5 0 true 0 0 true 0
          20 20 20)).2 = CaptionAlignment.center ∧
      ¬(captionLeftOffset
            (CaptionArgs.mk false .alignCenterFullWidth 40 1 2 5 0 true 0 0 true 0
              20 20 20) <
          captionBoundingLeft
            (CaptionArgs.mk false .alignCenterFullWidth 40 1 2 5 0 true 0 0 true 0
              20 20 20)) := by
  constructor
  · norm_num [Decoration.captionRect, captionBoundingLeft, captionLeftOffset,
      captionRightOffset, snapToPixelGrid, round_ofNat]
  · norm_num [captionBoundingLeft, captionLeftOffset, snapToPixelGrid, round_ofNat]

/-- C1 (amended): for the full-width title-alignment policy, `captionRect`
centers the caption over the entire title-bar width exactly when the
centered text bounding box fits within `[leftOffset, width-rightOffset]`
with boundary touching allowed (non-strict inequalities); if the centered
box's left edge would cross strictly past `leftOffset` it returns the
constrained rect left-aligned (this check has precedence), and otherwise
if its right edge would cross strictly past `width-rightOffset` it
returns the constrained rect right-aligned. -/
theorem captionRect_fullWidth_spec (a : CaptionArgs)
    (hhide : a.hideTitleBar = false)
    (halign : a.titleAlignment = .alignCenterFullWidth) :
    (Decoration.captionRect a = (captionFullRect a, CaptionAlignment.center) ↔
      captionLeftOffset a ≤ captionBoundingLeft a ∧
        captionBoundingLeft a + a.boundingWidth ≤ a.width - captionRightOffset a) ∧
    (captionBoundingLeft a < captionLeftOffset a →
      Decoration.captionRect a = (captionMaxRect a, CaptionAlignment.vcenterLeft)) ∧
    (captionLeftOffset a ≤ captionBoundingLeft a →
      a.width - captionRightOffset a < captionBoundingLeft a + a.boundingWidth →
      Decoration.captionRect a = (captionMaxRect a, CaptionAlignment.vcenterRight)) := by
  have hcr : Decoration.captionRect a =
      if captionBoundingLeft a < captionLeftOffset a then
        (captionMaxRect a, CaptionAlignment.vcenterLeft)
      else if captionBoundingLeft a + a.boundingWidth > a.width - captionRightOffset a then
        (captionMaxRect a, CaptionAlignment.vcenterRight)
      else
        (captionFullRect a, CaptionAlignment.center) := by
    simp [Decoration.captionRect, hhide, halign]
  refine ⟨?_, ?_, ?_⟩
  · rcases lt_or_le (captionBoundingLeft a) (captionLeftOffset a) with h1 | h1
    · rw [hcr, if_pos h1]
      constructor
      · intro h
        exact absurd (congrArg Prod.snd h) (by simp)
      · rintro ⟨h2, h3⟩
        linarith
    · rcases lt_or_le (a.width - captionRightOffset a)
        (captionBoundingLeft a + a.boundingWidth) with h2 | h2
      · rw [hcr, if_neg (not_lt.mpr h1), if_pos h2]
        constructor
        · intro h
          exact absurd (congrArg Prod.snd h) (by simp)
        · rintro ⟨h3, h4⟩
          linarith
      · rw [hcr, if_neg (not_lt.mpr h1), if_neg (not_lt.mpr h2)]
        simp only [true_iff, eq_self_iff_true]
        exact ⟨h1, h2⟩
  · intro h1
    rw [hcr, if_pos h1]
  · intro h1 h2
    rw [hcr, if_neg (not_lt.mpr h1), if_pos h2]

/-- Witness for C1 (amended): a 30-wide caption in a 40-wide title bar
with left offset 10 overflows on the left, yielding the left-aligned
constrained rect. -/
theorem captionRect_fullWidth_spec_witness :
    (CaptionArgs.mk false .alignCenterFullWidth 40 1 2 5 0 true 0 0 true 0
        20 20 30).hideTitleBar = false ∧
      (CaptionArgs.mk false .alignCenterFullWidth 40 1 2 5 0 true 0 0 true 0
        20 20 30).titleAlignment = TitleAlignment.alignCenterFullWidth ∧
      Decoration.captionRect
          (CaptionArgs.mk false .alignCenterFullWidth 40 1 2 5 0 true 0 0 true 0
            20 20 30) =
        (captionMaxRect
            (CaptionArgs.mk false .alignCenterFullWidth 40 1 2 5 0 true 0 0 true 0
              20 20 30),
          CaptionAlignment.vcenterLeft) :=
  ⟨rfl, rfl,
    (captionRect_fullWidth_spec
        (CaptionArgs.mk false .alignCenterFullWidth 40 1 2 5 0 true 0 0 true 0
          20 20 30) rfl rfl).2.1
      (by norm_num [captionBoundingLeft, captionLeftOffset, snapToPixelGrid,
        round_ofNat])⟩

/-- C7: in `updateButtonsGeometry`, for a non-empty left button group:
when the window's left edge touches a screen edge the group is positioned
at x = 0 and the group's first button is widened leftward by the side
margin (`hPadding`) and flagged first-in-list; otherwise the group is
positioned at x = sideMargin + leftBorder. Symmetrically, for a non-empty
right group: when the right edge touches a screen edge the group is
positioned flush right (x = width - groupWidth) and the group's last
button (the one at the window edge) is widened rightward by the side
margin and flagged; otherwise x = width - groupWidth - sideMargin -
rightBorder. -/
theorem updateButtonsGeometry_edge_rules (a : ButtonsGeometryArgs) :
    (∀ p ps, a.leftPrefs = p :: ps →
      (a.isLeftEdge = true →
        (Decoration.updateButtonsGeometry a).leftPos =
          some (0, (buttonsVPadding a : ℚ)) ∧
        (Decoration.updateButtonsGeometry a).left.head? =
          some { baseButton (buttonsVOffset a) p with
                  geometry := (baseButton (buttonsVOffset a) p).geometry.adjusted
                    (-(buttonsHPadding a : ℚ)) 0 0 0
                  firstInList := true
                  leftPadding := (buttonsHPadding a : ℚ) }) ∧
      (a.isLeftEdge = false →
        (Decoration.updateButtonsGeometry a).leftPos =
          some ((buttonsHPadding a : ℚ) + a.borderLeft, (buttonsVPadding a : ℚ)))) ∧
    (∀ q, a.rightPrefs.getLast? = some q →
      (a.isRightEdge = true →
        (Decoration.updateButtonsGeometry a).rightPos =
          some (a.width - a.rightGroupWidth, (buttonsVPadding a : ℚ)) ∧
        (Decoration.updateButtonsGeometry a).right.getLast? =
          some { baseButton (buttonsVOffset a) q with
                  geometry := (baseButton (buttonsVOffset a) q).geometry.adjusted
                    0 0 (buttonsHPadding a : ℚ) 0
                  firstInList := true
                  rightPadding := (buttonsHPadding a : ℚ) }) ∧
      (a.isRightEdge = false →
        (Decoration.updateButtonsGeometry a).rightPos =
          some (a.width - a.rightGroupWidth - (buttonsHPadding a : ℚ) - a.borderRight,
            (buttonsVPadding a : ℚ)))) := by
  constructor
  · intro p ps hl
    constructor <;> intro hedge
    · constructor <;>
        simp [Decoration.updateButtonsGeometry, hl, hedge]
    · simp [Decoration.updateButtonsGeometry, hl, hedge]
  · intro q hr
    obtain ⟨q0, qs, hr0⟩ : ∃ q0 qs, a.rightPrefs = q0 :: qs := by
      cases hrp : a.rightPrefs with
      | nil => rw [hrp] at hr; simp at hr
      | cons q0 qs => exact ⟨q0, qs, rfl⟩
    constructor <;> intro hedge
    · constructor
      · simp [Decoration.updateButtonsGeometry, hr0, hedge]
      · have hmap : (a.rightPrefs.map (baseButton (buttonsVOffset a))).getLast? =
            some (baseButton (buttonsVOffset a) q) := by
          rw [map_getLast?, hr]
          rfl
        simp only [Decoration.updateButtonsGeometry, hr0, List.map_cons, hedge, if_true]
        rw [← List.map_cons, ← hr0, modifyLast_getLast?, hmap]
        rfl
    · simp [Decoration.updateButtonsGeometry, hr0, hedge]

/-- Witness for C7: one left button of preferred size 20x20 and one right
button of size 20x20 in a 200-wide window touching the left screen edge
but not the right; the left group lands at x = 0, the right group at
width - groupWidth - hPadding - borderRight = 200 - 20 - 10 - 4 = 166. -/
theorem updateButtonsGeometry_edge_rules_witness :
    (ButtonsGeometryArgs.mk false true false 2 5 1 1 4 4 200
        [(20, 20)] [(20, 20)] 20).leftPrefs = [(20, 20)] ∧
      (ButtonsGeometryArgs.mk false true false 2 5 1 1 4 4 200
        [(20, 20)] [(20, 20)] 20).rightPrefs.getLast? = some (20, 20) ∧
      (Decoration.updateButtonsGeometry
          (ButtonsGeometryArgs.mk false true false 2 5 1 1 4 4 200
            [(20, 20)] [(20, 20)] 20)).leftPos =
        some (0, (buttonsVPadding
          (ButtonsGeometryArgs.mk false true false 2 5 1 1 4 4 200
            [(20, 20)] [(20, 20)] 20) : ℚ)) ∧
      (Decoration.updateButtonsGeometry
          (ButtonsGeometryArgs.mk false true false 2 5 1 1 4 4 200
            [(20, 20)] [(20, 20)] 20)).rightPos =
        some (200 - 20 -
          (buttonsHPadding
            (ButtonsGeometryArgs.mk false true false 2 5 1 1 4 4 200
              [(20, 20)] [(20, 20)] 20) : ℚ) - 4,
          (buttonsVPadding
            (ButtonsGeometryArgs.mk false true false 2 5 1 1 4 4 200
              [(20, 20)] [(20, 20)] 20) : ℚ)) :=
  ⟨rfl, rfl,
    ((((updateButtonsGeometry_edge_rules
        (ButtonsGeometryArgs.mk false true false 2 5 1 1 4 4 200
          [(20, 20)] [(20, 20)] 20)).1 (20, 20) [] rfl).1 rfl).1),
    (((updateButtonsGeometry_edge_rules
        (ButtonsGeometryArgs.mk false true false 2 5 1 1 4 4 200
          [(20, 20)] [(20, 20)] 20)).2 (20, 20) rfl).2 rfl)⟩

/-- Witness for C4 at a concrete shaded, maximized, alpha-supported
window. -/
theorem windowPath_eq_titleBarPath_of_shaded_witness :
    (ShapeArgs.mk true true true true false false false 200 20 8
        ⟨0, 0, 200, 100⟩ PPath.empty).shaded = true ∧
      (Decoration.calculateWindowAndTitleBarShapes
          (ShapeArgs.mk true true true true false false false 200 20 8
            ⟨0, 0, 200, 100⟩ PPath.empty)).windowPath =
        (Decoration.calculateWindowAndTitleBarShapes
          (ShapeArgs.mk true true true true false false false 200 20 8
            ⟨0, 0, 200, 100⟩ PPath.empty)).titleBarPath :=
  ⟨rfl,
    windowPath_eq_titleBarPath_of_shaded
      (ShapeArgs.mk true true true true false false false 200 20 8
        ⟨0, 0, 200, 100⟩ PPath.empty) rfl⟩

end Glass
